import Mathlib

/-!
Shallow embedding of the TripGenie recommendation pipeline and evaluation
engine (src/src/agents/intent_extractor.py, src/src/agents/trip_planner.py,
src/src/agents/orchestrator.py, src/src/api/flights.py,
src/src/evaluation/evaluator.py, src/src/core/metrics.py).

Python floats are modelled as rationals (ℚ), Python ints as ℤ, optional
fields as Option.  Calls to the opaque text-completion service and to the
flight-pricing service are modelled by explicit outcome parameters: a
successful call carries the parsed payload, a failed call is `none` /
`Except.error`.  `f"..."` log/error messages are modelled constructor-wise
by the inductive type `EvalMessage` (the constructor carries exactly the
data interpolated into the Python format string).
-/

namespace TripGenie

/-- Python truthiness of an optional string: `None` and `""` are falsy. -/
def pyTruthyStr (o : Option String) : Bool :=
  match o with
  | some s => !s.isEmpty
  | none => false

/-- Python `x or d` for an optional int: `None` and `0` fall back to `d`. -/
def pyOrInt (o : Option Int) (d : Int) : Int :=
  match o with
  | some v => if v ≠ 0 then v else d
  | none => d

/-- Python `x or d` for an optional string: `None` and `""` fall back to `d`. -/
def pyOrStr (o : Option String) (d : String) : String :=
  match o with
  | some s => if s.isEmpty then d else s
  | none => d

/-- Python banker's rounding to an integer (round-half-to-even), as used by
the built-in `round`. -/
def roundHalfEven (q : ℚ) : ℤ :=
  let n := ⌊q⌋
  let r := q - n
  if r < 1/2 then n
  else if 1/2 < r then n + 1
  else if n % 2 = 0 then n else n + 1

/-- Python `round(x, 1)`. -/
def round1 (q : ℚ) : ℚ := (roundHalfEven (q * 10) : ℚ) / 10

/-- Python `round(x, 2)`. -/
def round2 (q : ℚ) : ℚ := (roundHalfEven (q * 100) : ℚ) / 100

/-- Python `round(x, 4)`. -/
def round4 (q : ℚ) : ℚ := (roundHalfEven (q * 10000) : ℚ) / 10000

/-- TravelIntent (intent_extractor.py), with the pydantic per-field defaults. -/
structure TravelIntent where
  destination : Option String := none
  start_date : Option String := none
  end_date : Option String := none
  duration_days : Option Int := none
  num_travelers : Int := 1
  traveler_type : Option String := none
  budget_usd : Option ℚ := none
  budget_flexibility : String := "moderate"
  interests : List String := []
  accommodation_type : Option String := none
  pace : Option String := some "moderate"
  flight_class : String := "economy"
  direct_flights_only : Bool := false
  must_include : List String := []
  must_avoid : List String := []
  original_query : String := ""
  confidence_score : ℚ := 0
deriving DecidableEq, Repr

/-- DayPlan (trip_planner.py). -/
structure DayPlan where
  day : Int
  date : String
  morning : String
  afternoon : String
  evening : String
  estimated_cost_usd : ℚ
  notes : String := ""
deriving DecidableEq, Repr

/-- TripPlan (trip_planner.py). -/
structure TripPlan where
  destination : String
  duration_days : Int
  daily_plans : List DayPlan
  total_estimated_cost : ℚ
  highlights : List String
  practical_tips : List String
deriving DecidableEq, Repr

/-- FlightOffer (flights.py). -/
structure FlightOffer where
  price_usd : ℚ
  airline : String
  departure_time : String
  arrival_time : String
  duration_hours : ℚ
  stops : Int
  cabin_class : String
  booking_url : Option String := none
deriving DecidableEq, Repr

/-- FlightSearchResult (flights.py). -/
structure FlightSearchResult where
  origin : String
  destination : String
  date : String
  offers : List FlightOffer
  search_success : Bool := true
  error_message : Option String := none
deriving DecidableEq, Repr

/-- TripRecommendation (orchestrator.py). -/
structure TripRecommendation where
  intent : TravelIntent
  trip_plan : TripPlan
  outbound_flights : Option FlightSearchResult := none
  return_flights : Option FlightSearchResult := none
  total_cost_estimate : ℚ := 0
  generation_time_ms : ℚ := 0
  confidence_score : ℚ := 0
deriving DecidableEq, Repr

/-- One entry of the Metrics Recorder ledger (metrics.py, RequestMetrics).
Wall-clock fields (timestamp, latency) and the derived dollar cost are
external to the claims and omitted. -/
structure RequestMetrics where
  operation : String
  model : String
  input_tokens : Nat
  output_tokens : Nat
  success : Bool
  error : Option String := none
deriving DecidableEq, Repr

/-- Error messages recorded by the evaluator's heuristic checks
(evaluator.py `_run_heuristic_checks`), modelled constructor-wise: each
constructor carries the data interpolated into the Python f-string. -/
inductive EvalMessage where
  | noDailyPlans : EvalMessage
  | wrongDayCount (got : Nat) (expected : Int) : EvalMessage
  | budgetExceeded (total budget : ℚ) : EvalMessage
  | dayNumbering (day : Nat) : EvalMessage
deriving DecidableEq, Repr

/-- Recognizes the "No daily plans generated" message. -/
def EvalMessage.isNoDaily : EvalMessage → Bool
  | .noDailyPlans => true
  | _ => false

/-- Recognizes the "Budget exceeded" message. -/
def EvalMessage.isBudgetMsg : EvalMessage → Bool
  | .budgetExceeded _ _ => true
  | _ => false

/-- Recognizes the "Day numbering issue" message. -/
def EvalMessage.isDayNumbering : EvalMessage → Bool
  | .dayNumbering _ => true
  | _ => false

/-- EvaluationMetrics (evaluator.py), with its field defaults. -/
structure EvaluationMetrics where
  intent_match_score : ℚ := 0
  budget_adherence_score : ℚ := 0
  feasibility_score : ℚ := 0
  completeness_score : ℚ := 0
  coherence_score : ℚ := 0
  overall_score : ℚ := 0
  grade : String := "F"
  latency_ms : ℚ := 0
  cost_usd : ℚ := 0
  has_critical_errors : Bool := false
  error_messages : List EvalMessage := []
  evaluated_at : String := ""
deriving DecidableEq, Repr

/-- Check 1 of `_run_heuristic_checks` (evaluator.py lines 100-110):
completeness score, critical-error flag, and recorded messages. -/
def completenessCheck (plan : TripPlan) : ℚ × Bool × List EvalMessage :=
  if plan.daily_plans.isEmpty then
    (0, true, [.noDailyPlans])
  else if (plan.daily_plans.length : Int) ≠ plan.duration_days then
    (5, false, [.wrongDayCount plan.daily_plans.length plan.duration_days])
  else
    (10, false, [])

/-- Check 2 of `_run_heuristic_checks` (evaluator.py lines 112-128).  The
Python guard `intent.budget_usd and intent.budget_usd > 0` is truthy exactly
when the budget is present and strictly positive (`None` and `0.0` are
falsy, a negative budget fails the `> 0` comparison). -/
def budgetCheck (intent : TravelIntent) (totalCost : ℚ) : ℚ × List EvalMessage :=
  match intent.budget_usd with
  | some b =>
    if 0 < b then
      let budget_ratio := totalCost / b
      if budget_ratio ≤ 1 then (10, [])
      else if budget_ratio ≤ 6/5 then (7, [])
      else if budget_ratio ≤ 3/2 then (4, [])
      else (2, [.budgetExceeded totalCost b])
    else (8, [])
  | none => (8, [])

/-- Body of the coherence loop of `_run_heuristic_checks` (evaluator.py
lines 130-142), written as structural recursion over the day list with the
0-based `enumerate` index threaded through.  Returns the total deduction
from the starting score of 10 together with the recorded messages; the
Python loop's running `coherence` variable equals `10 -` this deduction. -/
def coherenceScan (i : Nat) (days : List DayPlan) : ℚ × List EvalMessage :=
  match days with
  | [] => (0, [])
  | d :: rest =>
    let tail := coherenceScan (i + 1) rest
    let numberingPen : ℚ := if d.day ≠ ((i : Int) + 1) then 2 else 0
    let numberingMsg : List EvalMessage :=
      if d.day ≠ ((i : Int) + 1) then [.dayNumbering (i + 1)] else []
    let activityPen : ℚ :=
      if d.morning.isEmpty || d.afternoon.isEmpty || d.evening.isEmpty then 1 else 0
    (numberingPen + activityPen + tail.1, numberingMsg ++ tail.2)

/-- Check 3 of `_run_heuristic_checks`: coherence score (floored at 0 by
`max(0.0, coherence)`) and its messages. -/
def coherenceCheck (days : List DayPlan) : ℚ × List EvalMessage :=
  let scan := coherenceScan 0 days
  (max 0 (10 - scan.1), scan.2)

/-- `_run_heuristic_checks` (evaluator.py lines 90-142): the three
sequential checks, each updating its own score fields and appending its
messages in program order. -/
def runHeuristicChecks (rec : TripRecommendation) (m : EvaluationMetrics) :
    EvaluationMetrics :=
  let c := completenessCheck rec.trip_plan
  let b := budgetCheck rec.intent rec.total_cost_estimate
  let co := coherenceCheck rec.trip_plan.daily_plans
  { m with
    completeness_score := c.1
    has_critical_errors := m.has_critical_errors || c.2.1
    budget_adherence_score := b.1
    coherence_score := co.1
    error_messages := m.error_messages ++ c.2.2 ++ b.2 ++ co.2 }

/-- `_run_llm_evaluation` (evaluator.py lines 144-233).  `outcome` models
the try-block around the text-service call: `some (im, fs)` is a successful
call whose parsed JSON yielded those two scores (after the `.get` defaults),
`none` is any service/parse failure, which falls back to the conservative
6.0 / 6.0.  The Metrics Recorder entry tagged "llm_evaluation" is not
needed by any claim and is omitted. -/
def runLlmEvaluation (outcome : Option (ℚ × ℚ)) (m : EvaluationMetrics) :
    EvaluationMetrics :=
  match outcome with
  | some scores =>
    { m with intent_match_score := scores.1, feasibility_score := scores.2 }
  | none =>
    { m with intent_match_score := 6, feasibility_score := 6 }

/-- `_calculate_overall_score` (evaluator.py lines 235-258). -/
def calculateOverallScore (m : EvaluationMetrics) : ℚ :=
  if m.has_critical_errors then 0
  else
    round1 (m.intent_match_score * (3/10) +
      m.budget_adherence_score * (1/4) +
      m.feasibility_score * (1/5) +
      m.completeness_score * (3/20) +
      m.coherence_score * (1/10))

/-- `_score_to_grade` (evaluator.py lines 260-271). -/
def scoreToGrade (score : ℚ) : String :=
  if 9 ≤ score then "A"
  else if 15/2 ≤ score then "B"
  else if 6 ≤ score then "C"
  else if 4 ≤ score then "D"
  else "F"

/-- External inputs of one `evaluate` call: the outcome of the LLM-judge
service call, the generation cost read from the metrics tracker, and the
wall-clock timestamp. -/
structure EvalEnv where
  llmOutcome : Option (ℚ × ℚ) := none
  genCost : ℚ := 0
  now : String := ""

/-- `evaluate` (evaluator.py lines 53-88): heuristic checks, then the
LLM-judge stage (skipped when the critical-error flag is set), then overall
score and letter grade. -/
def evaluate (rec : TripRecommendation) (env : EvalEnv) : EvaluationMetrics :=
  let m0 : EvaluationMetrics :=
    { evaluated_at := env.now
      latency_ms := rec.generation_time_ms
      cost_usd := env.genCost }
  let m1 := runHeuristicChecks rec m0
  let m2 := if m1.has_critical_errors then m1 else runLlmEvaluation env.llmOutcome m1
  let m3 := { m2 with overall_score := calculateOverallScore m2 }
  { m3 with grade := scoreToGrade m3.overall_score }

/-- Test whether `needle` occurs at the start of `hay` (character lists). -/
def leadsWith : List Char → List Char → Bool
  | [], _ => true
  | _ :: _, [] => false
  | a :: as, b :: bs => a == b && leadsWith as bs

/-- Python string containment `needle in hay`, on character lists: some
suffix of `hay` starts with `needle` (the empty needle is contained in
everything). -/
def containsSub (hay needle : List Char) : Bool :=
  match hay with
  | [] => needle.isEmpty
  | _ :: tl => leadsWith needle hay || containsSub tl needle

/-- `location.lower()` as a character list. -/
def lowerData (s : String) : List Char := s.data.map Char.toLower

/-- The static `airport_map` of `_get_airport_code` (orchestrator.py lines
150-166), in its Python insertion order. -/
def airportMap : List (String × String) :=
  [("bangkok", "BKK"), ("thailand", "BKK"), ("new york", "JFK"),
   ("nyc", "JFK"), ("london", "LHR"), ("paris", "CDG"), ("tokyo", "NRT"),
   ("singapore", "SIN"), ("dubai", "DXB"), ("hong kong", "HKG"),
   ("bali", "DPS"), ("phuket", "HKT"), ("mumbai", "BOM"), ("delhi", "DEL"),
   ("sydney", "SYD")]

/-- `_get_airport_code` (orchestrator.py lines 144-174): lowercase the
input, scan the table in insertion order, return the code of the first
entry whose key is contained in the lowered input, else the fallback JFK. -/
def getAirportCode (location : String) : String :=
  match airportMap.find? (fun kc => containsSub (lowerData location) kc.1.data) with
  | some kc => kc.2
  | none => "JFK"

/-- Modelled from the spec claim's words (not from the source, which keeps
only the first match): among the table entries whose key is contained in
the lowered input, return the code of the one with the longest key. -/
def getAirportCodeByLongestKey (location : String) : String :=
  let hits := airportMap.filter (fun kc => containsSub (lowerData location) kc.1.data)
  match hits with
  | [] => "JFK"
  | h :: t =>
    (t.foldl (fun best kc => if best.1.length < kc.1.length then kc else best) h).2

/-- `get_mock_flights` (flights.py lines 215-261): fixed three-offer set. -/
def getMockFlights (origin destination departureDate : String) :
    FlightSearchResult :=
  { origin := origin
    destination := destination
    date := departureDate
    offers :=
      [{ price_usd := 450, airline := "TG"
         departure_time := departureDate ++ "T10:30:00"
         arrival_time := departureDate ++ "T18:45:00"
         duration_hours := 33/4, stops := 0, cabin_class := "ECONOMY" },
       { price_usd := 385, airline := "SQ"
         departure_time := departureDate ++ "T14:15:00"
         arrival_time := departureDate ++ "T23:30:00"
         duration_hours := 37/4, stops := 1, cabin_class := "ECONOMY" },
       { price_usd := 520, airline := "EK"
         departure_time := departureDate ++ "T08:00:00"
         arrival_time := departureDate ++ "T16:20:00"
         duration_hours := 833/100, stops := 0, cabin_class := "ECONOMY" }]
    search_success := true }

/-- `extract` of the Intent Extractor (intent_extractor.py lines 59-149).
`outcome` models the whole try-block: `some data` is a text-service call
whose stripped response parsed as JSON and validated into a TravelIntent
(the code then overwrites `original_query` with the input query); `none` is
any service, parse, or construction failure, caught by the except-block,
which returns the fallback intent — this function is total, so the call
never raises to its caller. -/
def extract (userQuery : String) (outcome : Option TravelIntent) : TravelIntent :=
  match outcome with
  | some data => { data with original_query := userQuery }
  | none => { original_query := userQuery, confidence_score := 1/10 }

/-- `plan_trip` of the Plan Generator (trip_planner.py lines 43-113),
threading the Metrics Recorder ledger explicitly.  `outcome` models the
text-service call plus JSON parse plus TripPlan construction: on success it
carries the plan and the reported token usage; on failure it carries the
exception text.  On success one "trip_planning" entry with the token counts
is recorded; on failure one "trip_planning" entry with zero tokens and
`success := false` is recorded and the exception is re-raised. -/
def plan_trip (ledger : List RequestMetrics) (modelName : String)
    (outcome : Except String (TripPlan × Nat × Nat)) :
    List RequestMetrics × Except String TripPlan :=
  match outcome with
  | .ok payload =>
    (ledger ++ [{ operation := "trip_planning", model := modelName,
                  input_tokens := payload.2.1, output_tokens := payload.2.2,
                  success := true }],
     .ok payload.1)
  | .error e =>
    (ledger ++ [{ operation := "trip_planning", model := modelName,
                  input_tokens := 0, output_tokens := 0,
                  success := false, error := some e }],
     .error e)

/-- Minimum offer price, `min(o.price_usd for o in offers)` — only
evaluated on a non-empty offer list in the source. -/
def minOfferPrice : List FlightOffer → ℚ
  | [] => 0
  | o :: rest => rest.foldl (fun acc x => min acc x.price_usd) o.price_usd

/-- `_calculate_confidence` (orchestrator.py lines 176-206). -/
def calculateConfidence (intent : TravelIntent) (plan : TripPlan)
    (flights : Option FlightSearchResult) : ℚ :=
  let scores : List ℚ := [intent.confidence_score]
  let planScore : ℚ :=
    if plan.daily_plans.isEmpty then 0
    else if (plan.daily_plans.length : Int) < pyOrInt intent.duration_days 1 then 7/10
    else 1
  let scores := scores ++ [planScore]
  let scores :=
    match flights with
    | some f => scores ++ [if f.search_success && !f.offers.isEmpty then (1 : ℚ) else 1/2]
    | none => scores
  if scores.isEmpty then 1/2 else scores.sum / (scores.length : ℚ)

/-- The `context` dict of `process_query`, reduced to the only key the
orchestrator reads (`context.get('origin', 'NYC')`). -/
structure OrchContext where
  origin : Option String := none

/-- External inputs of one `process_query` call: the outcome of the intent
extraction try-block, the outcome of plan generation, the API mode flag,
the (opaque) authenticated flight search, and the measured wall-clock
latency. -/
structure OrchEnv where
  extractOutcome : Option TravelIntent := none
  planOutcome : Except String TripPlan
  useRealApis : Bool := false
  searchFn : String → String → Option String → Option String → Int → String →
    FlightSearchResult := fun o d dt _ _ _ => getMockFlights o d (dt.getD "")
  genTime : ℚ := 0

/-- `process_query` (orchestrator.py lines 39-142).  A plan-generation
failure propagates (the orchestrator does not intercept it); the flight
search runs only when `include_flights` is set and the intent's destination
and start date are truthy; total cost and confidence are computed as in
steps 4 and 5 of the source. -/
def processQuery (env : OrchEnv) (userQuery : String) (includeFlights : Bool)
    (context : Option OrchContext) : Except String TripRecommendation :=
  let intent := extract userQuery env.extractOutcome
  match env.planOutcome with
  | .error e => .error e
  | .ok plan =>
    let outbound : Option FlightSearchResult :=
      if includeFlights && pyTruthyStr intent.destination && pyTruthyStr intent.start_date then
        let originCode := getAirportCode
          (match context with | some c => c.origin.getD "NYC" | none => "NYC")
        let destCode := getAirportCode (intent.destination.getD "")
        some (if env.useRealApis then
                env.searchFn originCode destCode intent.start_date intent.end_date
                  intent.num_travelers intent.flight_class.toUpper
              else
                getMockFlights originCode destCode (pyOrStr intent.start_date "2026-03-15"))
      else none
    let totalCost := plan.total_estimated_cost +
      (match outbound with
       | some f =>
         if f.offers.isEmpty then 0
         else minOfferPrice f.offers * (intent.num_travelers : ℚ) *
           (if pyTruthyStr intent.end_date then 2 else 1)
       | none => 0)
    let confidence := calculateConfidence intent plan outbound
    .ok { intent := intent
          trip_plan := plan
          outbound_flights := outbound
          return_flights := none
          total_cost_estimate := totalCost
          generation_time_ms := env.genTime
          confidence_score := confidence }

/-- The aggregate record returned by `batch_evaluate` (evaluator.py lines
278-308). -/
structure BatchStats where
  total_evaluated : Nat
  average_score : ℚ
  average_latency_ms : ℚ
  total_cost_usd : ℚ
  grade_distribution : List (String × Nat)
  all_metrics : List EvaluationMetrics
deriving DecidableEq, Repr

/-- One step of the grade histogram loop
`grade_distribution[m.grade] = grade_distribution.get(m.grade, 0) + 1`:
a Python dict keeps insertion order, updating in place when the key exists
and appending a fresh key at the end. -/
def bumpGrade (d : List (String × Nat)) (g : String) : List (String × Nat) :=
  match d with
  | [] => [(g, 1)]
  | kv :: rest => if kv.1 = g then (kv.1, kv.2 + 1) :: rest else kv :: bumpGrade rest g

/-- `batch_evaluate` (evaluator.py lines 278-308): evaluate each input in
order, then aggregate.  On an empty input list `sum(...) / len(results)`
raises ZeroDivisionError, modelled as `none`. -/
def batchEvaluate (inputs : List (TripRecommendation × EvalEnv)) :
    Option BatchStats :=
  let results := inputs.map (fun p => evaluate p.1 p.2)
  if results.isEmpty then none
  else
    some { total_evaluated := results.length
           average_score := round2 ((results.map EvaluationMetrics.overall_score).sum / (results.length : ℚ))
           average_latency_ms := round2 ((results.map EvaluationMetrics.latency_ms).sum / (results.length : ℚ))
           total_cost_usd := round4 (results.map EvaluationMetrics.cost_usd).sum
           grade_distribution := results.foldl (fun d m => bumpGrade d m.grade) []
           all_metrics := results }

/-- Number of days whose `day` field differs from its 1-based position,
counting from 0-based index `i` (spec-level counter for the coherence
penalty of −2 per mismatched day). -/
def mismatchCount : Nat → List DayPlan → Nat
  | _, [] => 0
  | i, d :: rest =>
    (if d.day ≠ ((i : Int) + 1) then 1 else 0) + mismatchCount (i + 1) rest

/-- Number of days with an empty morning, afternoon, or evening text
(spec-level counter for the coherence penalty of −1 per such day). -/
def emptyActCount : List DayPlan → Nat
  | [] => 0
  | d :: rest =>
    (if d.morning.isEmpty || d.afternoon.isEmpty || d.evening.isEmpty then 1 else 0) +
      emptyActCount rest

theorem evaluate_fields (rec : TripRecommendation) (env : EvalEnv) :
    (evaluate rec env).completeness_score = (completenessCheck rec.trip_plan).1 ∧
    (evaluate rec env).has_critical_errors = (completenessCheck rec.trip_plan).2.1 ∧
    (evaluate rec env).budget_adherence_score =
      (budgetCheck rec.intent rec.total_cost_estimate).1 ∧
    (evaluate rec env).coherence_score =
      (coherenceCheck rec.trip_plan.daily_plans).1 ∧
    (evaluate rec env).error_messages =
      (completenessCheck rec.trip_plan).2.2 ++
      (budgetCheck rec.intent rec.total_cost_estimate).2 ++
      (coherenceCheck rec.trip_plan.daily_plans).2 := by
  simp only [evaluate, runHeuristicChecks]
  refine ⟨?_, ?_, ?_, ?_, ?_⟩ <;>
    · simp only [runLlmEvaluation]
      split
      · simp
      · cases env.llmOutcome <;> simp

theorem completenessCheck_countP (plan : TripPlan) (p : EvalMessage → Bool)
    (h1 : p .noDailyPlans = false)
    (h2 : ∀ g e, p (.wrongDayCount g e) = false) :
    (completenessCheck plan).2.2.countP p = 0 := by
  unfold completenessCheck
  split
  · simp [List.countP_cons, h1]
  · split <;> simp [List.countP_cons, h2]

theorem budgetCheck_countP (intent : TravelIntent) (t : ℚ) (p : EvalMessage → Bool)
    (h : ∀ a b, p (.budgetExceeded a b) = false) :
    (budgetCheck intent t).2.countP p = 0 := by
  unfold budgetCheck
  cases intent.budget_usd with
  | none => simp
  | some b =>
    by_cases hb : 0 < b
    · simp only [hb, if_true]
      split_ifs <;> simp [List.countP_cons, h]
    · simp [hb]

theorem coherenceScan_countP (days : List DayPlan) (i : Nat) (p : EvalMessage → Bool)
    (h : ∀ k, p (.dayNumbering k) = false) :
    (coherenceScan i days).2.countP p = 0 := by
  induction days generalizing i with
  | nil => simp [coherenceScan]
  | cons d rest ih =>
    simp only [coherenceScan, List.countP_append, ih]
    split <;> simp [List.countP_cons, h]

theorem coherenceScan_spec (days : List DayPlan) (i : Nat) :
    (coherenceScan i days).1 =
      2 * (mismatchCount i days : ℚ) + (emptyActCount days : ℚ) ∧
    (coherenceScan i days).2.countP EvalMessage.isDayNumbering =
      mismatchCount i days := by
  induction days generalizing i with
  | nil => simp [coherenceScan, mismatchCount, emptyActCount]
  | cons d rest ih =>
    obtain ⟨ihs, ihc⟩ := ih (i + 1)
    simp only [coherenceScan, mismatchCount, emptyActCount, List.countP_append, ihs, ihc]
    constructor
    · split_ifs <;> push_cast <;> ring
    · split <;> simp [List.countP_cons, EvalMessage.isDayNumbering]

/-- Claim C1: for every evaluated recommendation, if the critical-error
flag is set the overall score is 0 and the grade is "F"; otherwise the
overall score is the weighted sub-score sum
0.30·intent_match + 0.25·budget + 0.20·feasibility + 0.15·completeness +
0.10·coherence rounded to one decimal, and the grade follows the
thresholds ≥9.0→A, ≥7.5→B, ≥6.0→C, ≥4.0→D, else F. -/
theorem c1_overall_score_grade (rec : TripRecommendation) (env : EvalEnv) :
    (evaluate rec env).overall_score =
      (if (evaluate rec env).has_critical_errors then 0
       else round1 ((evaluate rec env).intent_match_score * (3/10) +
         (evaluate rec env).budget_adherence_score * (1/4) +
         (evaluate rec env).feasibility_score * (1/5) +
         (evaluate rec env).completeness_score * (3/20) +
         (evaluate rec env).coherence_score * (1/10))) ∧
    (evaluate rec env).grade =
      (if 9 ≤ (evaluate rec env).overall_score then "A"
       else if 15/2 ≤ (evaluate rec env).overall_score then "B"
       else if 6 ≤ (evaluate rec env).overall_score then "C"
       else if 4 ≤ (evaluate rec env).overall_score then "D"
       else "F") :=
  ⟨rfl, rfl⟩

/-- Claim C3: if the text-service call, the JSON parse, or the record
construction fails, `extract` returns (never raising — it is a total
function) a TravelIntent whose original_query is the input query, whose
confidence_score is exactly 0.1, and whose other fields are the per-field
defaults. -/
theorem c3_extract_fail_soft (q : String) :
    (extract q none).original_query = q ∧
    (extract q none).confidence_score = 1/10 ∧
    (extract q none).destination = none ∧
    (extract q none).start_date = none ∧
    (extract q none).end_date = none ∧
    (extract q none).duration_days = none ∧
    (extract q none).num_travelers = 1 ∧
    (extract q none).traveler_type = none ∧
    (extract q none).budget_usd = none ∧
    (extract q none).budget_flexibility = "moderate" ∧
    (extract q none).interests = [] ∧
    (extract q none).accommodation_type = none ∧
    (extract q none).pace = some "moderate" ∧
    (extract q none).flight_class = "economy" ∧
    (extract q none).direct_flights_only = false ∧
    (extract q none).must_include = [] ∧
    (extract q none).must_avoid = [] :=
  ⟨rfl, rfl, rfl, rfl, rfl, rfl, rfl, rfl, rfl, rfl, rfl, rfl, rfl, rfl, rfl,
   rfl, rfl⟩

/-- Claim C4: when the service call or JSON parse inside `plan_trip` fails,
exactly one Metrics Recorder entry tagged "trip_planning" with zero input
and output tokens and success=false is appended to the ledger, and the same
exception is re-raised to the caller (no fallback TripPlan is returned). -/
theorem c4_plan_failure_metrics_reraise (ledger : List RequestMetrics)
    (modelName : String) (e : String) :
    (plan_trip ledger modelName (.error e)).1 =
      ledger ++ [{ operation := "trip_planning", model := modelName,
                   input_tokens := 0, output_tokens := 0, success := false,
                   error := some e }] ∧
    (plan_trip ledger modelName (.error e)).2 = Except.error e :=
  ⟨rfl, rfl⟩

/-- Claim C5: the completeness score is 0 iff the day sequence is empty
(and then the critical-error flag is set and the "no daily plans" message
is recorded, exactly once); it is exactly 5 iff the day sequence is
non-empty with length different from the plan's stated duration; and it is
exactly 10 otherwise. -/
theorem c5_completeness_score (rec : TripRecommendation) (env : EvalEnv) :
    ((evaluate rec env).completeness_score = 0 ↔ rec.trip_plan.daily_plans = []) ∧
    ((evaluate rec env).has_critical_errors = true ↔ rec.trip_plan.daily_plans = []) ∧
    ((evaluate rec env).error_messages.countP EvalMessage.isNoDaily =
      if rec.trip_plan.daily_plans = [] then 1 else 0) ∧
    ((evaluate rec env).completeness_score = 5 ↔
      (rec.trip_plan.daily_plans ≠ [] ∧
        (rec.trip_plan.daily_plans.length : Int) ≠ rec.trip_plan.duration_days)) ∧
    ((evaluate rec env).completeness_score = 10 ↔
      (rec.trip_plan.daily_plans ≠ [] ∧
        (rec.trip_plan.daily_plans.length : Int) = rec.trip_plan.duration_days)) := by
  obtain ⟨hc, hcrit, hb, hco, hmsg⟩ := evaluate_fields rec env
  have hbm := budgetCheck_countP rec.intent rec.total_cost_estimate
    EvalMessage.isNoDaily (fun a b => rfl)
  have hcm := coherenceScan_countP rec.trip_plan.daily_plans 0
    EvalMessage.isNoDaily (fun k => rfl)
  simp only [hc, hcrit, hmsg, List.countP_append, hbm, coherenceCheck, hcm,
    completenessCheck]
  by_cases hemp : rec.trip_plan.daily_plans = []
  · simp [hemp, List.countP_cons, EvalMessage.isNoDaily]
  · have hne : rec.trip_plan.daily_plans.isEmpty = false := by
      simpa [List.isEmpty_iff] using hemp
    by_cases hlen :
        (rec.trip_plan.daily_plans.length : Int) = rec.trip_plan.duration_days
    · simp [hne, hlen, hemp]
    · simp [hne, hlen, hemp, List.countP_cons, EvalMessage.isNoDaily]

/-- Claim C6: with a stated positive budget the budget-adherence score is
determined by ratio = total cost / budget with the sharp boundaries
ratio ≤ 1.0 → 10, ≤ 1.2 → 7, ≤ 1.5 → 4, > 1.5 → 2 together with one
over-budget message; without a positive budget the score defaults to 8. -/
theorem c6_budget_adherence (rec : TripRecommendation) (env : EvalEnv) :
    ((evaluate rec env).budget_adherence_score =
      (match rec.intent.budget_usd with
       | none => 8
       | some b =>
         if 0 < b then
           (if rec.total_cost_estimate / b ≤ 1 then 10
            else if rec.total_cost_estimate / b ≤ 6/5 then 7
            else if rec.total_cost_estimate / b ≤ 3/2 then 4
            else 2)
         else 8)) ∧
    ((evaluate rec env).error_messages.countP EvalMessage.isBudgetMsg =
      (match rec.intent.budget_usd with
       | none => 0
       | some b =>
         if 0 < b ∧ 3/2 < rec.total_cost_estimate / b then 1 else 0)) := by
  obtain ⟨hc, hcrit, hb, hco, hmsg⟩ := evaluate_fields rec env
  have hcompm := completenessCheck_countP rec.trip_plan
    EvalMessage.isBudgetMsg rfl (fun g e => rfl)
  have hcohm := coherenceScan_countP rec.trip_plan.daily_plans 0
    EvalMessage.isBudgetMsg (fun k => rfl)
  simp only [hb, hmsg, List.countP_append, hcompm, coherenceCheck, hcohm,
    budgetCheck]
  constructor
  · cases rec.intent.budget_usd with
    | none => rfl
    | some b =>
      by_cases hpos : 0 < b
      · simp only [hpos, if_true]
        split_ifs <;> rfl
      · simp [hpos]
  · cases rec.intent.budget_usd with
    | none => simp
    | some b =>
      by_cases hpos : 0 < b
      · simp only [hpos, if_true, true_and]
        split_ifs with h1 h2 h3 h4 <;>
          simp [List.countP_cons, EvalMessage.isBudgetMsg] <;> linarith
      · simp [hpos]

/-- A recommendation whose plan has day indices [1, 2, 4] (a gap), with all
activity texts populated and the day count matching the stated duration. -/
def gapRec : TripRecommendation :=
  { intent := {}
    trip_plan :=
      { destination := "Thailand"
        duration_days := 3
        daily_plans :=
          [{ day := 1, date := "2026-03-15", morning := "m", afternoon := "a",
             evening := "e", estimated_cost_usd := 100 },
           { day := 2, date := "2026-03-16", morning := "m", afternoon := "a",
             evening := "e", estimated_cost_usd := 100 },
           { day := 4, date := "2026-03-17", morning := "m", afternoon := "a",
             evening := "e", estimated_cost_usd := 100 }]
        total_estimated_cost := 300
        highlights := []
        practical_tips := [] } }

/-- Claim C7: the coherence score is 10 minus 2 per day whose `day` field
differs from its 1-based position (one message recorded per such day) minus
1 per day with an empty morning/afternoon/evening text, floored at 0; in
particular the plan with day indices [1, 2, 4] and populated activity texts
scores exactly 8 with exactly one day-numbering message. -/
theorem c7_coherence_score :
    (∀ (rec : TripRecommendation) (env : EvalEnv),
      (evaluate rec env).coherence_score =
        max 0 (10 - 2 * (mismatchCount 0 rec.trip_plan.daily_plans : ℚ) -
          (emptyActCount rec.trip_plan.daily_plans : ℚ)) ∧
      (evaluate rec env).error_messages.countP EvalMessage.isDayNumbering =
        mismatchCount 0 rec.trip_plan.daily_plans) ∧
    ((evaluate gapRec {}).coherence_score = 8 ∧
      (evaluate gapRec {}).error_messages.countP EvalMessage.isDayNumbering = 1) := by
  have hmain : ∀ (rec : TripRecommendation) (env : EvalEnv),
      (evaluate rec env).coherence_score =
        max 0 (10 - 2 * (mismatchCount 0 rec.trip_plan.daily_plans : ℚ) -
          (emptyActCount rec.trip_plan.daily_plans : ℚ)) ∧
      (evaluate rec env).error_messages.countP EvalMessage.isDayNumbering =
        mismatchCount 0 rec.trip_plan.daily_plans := by
    intro rec env
    obtain ⟨hc, hcrit, hb, hco, hmsg⟩ := evaluate_fields rec env
    obtain ⟨hs, hcnt⟩ := coherenceScan_spec rec.trip_plan.daily_plans 0
    have hcompm := completenessCheck_countP rec.trip_plan
      EvalMessage.isDayNumbering rfl (fun g e => rfl)
    have hbm := budgetCheck_countP rec.intent rec.total_cost_estimate
      EvalMessage.isDayNumbering (fun a b => rfl)
    constructor
    · rw [hco]
      simp only [coherenceCheck, hs]
      congr 1
      ring
    · rw [hmsg]
      simp only [List.countP_append, hcompm, hbm, coherenceCheck, hcnt]
      omega
  refine ⟨hmain, ?_, ?_⟩
  · obtain ⟨h1, _⟩ := hmain gapRec {}
    rw [h1]
    have hmm : mismatchCount 0 gapRec.trip_plan.daily_plans = 1 := by decide
    have hme : emptyActCount gapRec.trip_plan.daily_plans = 0 := by decide
    rw [hmm, hme]
    norm_num
  · obtain ⟨_, h2⟩ := hmain gapRec {}
    rw [h2]
    decide

/-- Claim C2: the total cost estimate of an assembled recommendation is the
plan's total estimated cost, plus — when a flight search was performed and
returned at least one offer — the minimum offer price times the traveler
count, doubled when the intent has a (truthy) end date. -/
theorem c2_total_cost (env : OrchEnv) (q : String) (incl : Bool)
    (ctx : Option OrchContext) (rec : TripRecommendation)
    (h : processQuery env q incl ctx = .ok rec) :
    rec.total_cost_estimate = rec.trip_plan.total_estimated_cost +
      (match rec.outbound_flights with
       | some f =>
         if f.offers.isEmpty then 0
         else minOfferPrice f.offers * (rec.intent.num_travelers : ℚ) *
           (if pyTruthyStr rec.intent.end_date then 2 else 1)
       | none => 0) := by
  cases hp : env.planOutcome with
  | error e => simp [processQuery, hp] at h
  | ok plan =>
    simp only [processQuery, hp, Except.ok.injEq] at h
    subst h
    rfl

/-- Claim C8: the overall confidence of an assembled recommendation is the
arithmetic mean of the intent confidence, the plan-completeness score
(0 for an empty day sequence, 0.7 when shorter than the requested duration
with a missing duration treated as 1, 1 otherwise) and — exactly when a
flight search was performed — a flight score of 1 when the search succeeded
with at least one offer and 0.5 otherwise. -/
theorem c8_confidence_mean (env : OrchEnv) (q : String) (incl : Bool)
    (ctx : Option OrchContext) (rec : TripRecommendation)
    (h : processQuery env q incl ctx = .ok rec) :
    rec.confidence_score =
      (let planScore : ℚ :=
        if rec.trip_plan.daily_plans.isEmpty then 0
        else if (rec.trip_plan.daily_plans.length : Int) <
            pyOrInt rec.intent.duration_days 1 then 7/10
        else 1
      match rec.outbound_flights with
      | none => (rec.intent.confidence_score + planScore) / 2
      | some f =>
        (rec.intent.confidence_score + planScore +
          (if f.search_success && !f.offers.isEmpty then 1 else 1/2)) / 3) := by
  cases hp : env.planOutcome with
  | error e => simp [processQuery, hp] at h
  | ok plan =>
    simp only [processQuery, hp, Except.ok.injEq] at h
    subst h
    simp only
    generalize (if incl && pyTruthyStr (extract q env.extractOutcome).destination &&
        pyTruthyStr (extract q env.extractOutcome).start_date then
        some (if env.useRealApis then
                env.searchFn
                  (getAirportCode
                    (match ctx with | some c => c.origin.getD "NYC" | none => "NYC"))
                  (getAirportCode ((extract q env.extractOutcome).destination.getD ""))
                  (extract q env.extractOutcome).start_date
                  (extract q env.extractOutcome).end_date
                  (extract q env.extractOutcome).num_travelers
                  (extract q env.extractOutcome).flight_class.toUpper
              else
                getMockFlights
                  (getAirportCode
                    (match ctx with | some c => c.origin.getD "NYC" | none => "NYC"))
                  (getAirportCode ((extract q env.extractOutcome).destination.getD ""))
                  (pyOrStr (extract q env.extractOutcome).start_date "2026-03-15"))
      else none) = outb
    cases outb with
    | none =>
      simp only [calculateConfidence, List.cons_append, List.nil_append,
        List.isEmpty_cons, Bool.false_eq_true, if_false, List.sum_cons,
        List.sum_nil, List.length_cons, List.length_nil]
      push_cast
      ring
    | some f =>
      simp only [calculateConfidence, List.cons_append, List.nil_append,
        List.isEmpty_cons, Bool.false_eq_true, if_false, List.sum_cons,
        List.sum_nil, List.length_cons, List.length_nil]
      push_cast
      ring

/-- Day plans of the concrete orchestration witness. -/
def wPlan : TripPlan :=
  { destination := "Paris"
    duration_days := 2
    daily_plans :=
      [{ day := 1, date := "2026-05-01", morning := "m", afternoon := "a",
         evening := "e", estimated_cost_usd := 100 },
       { day := 2, date := "2026-05-02", morning := "m", afternoon := "a",
         evening := "e", estimated_cost_usd := 100 }]
    total_estimated_cost := 1000
    highlights := []
    practical_tips := [] }

/-- Intent of the concrete orchestration witness (round trip, 2 travelers). -/
def wIntent : TravelIntent :=
  { destination := some "Paris", start_date := some "2026-05-01",
    end_date := some "2026-05-03", duration_days := some 2,
    num_travelers := 2, budget_usd := some 3000, confidence_score := 9/10 }

/-- Concrete orchestration environment: successful extraction and planning,
mock flight mode. -/
def wEnv : OrchEnv := { extractOutcome := some wIntent, planOutcome := .ok wPlan }

/-- The recommendation assembled by `processQuery` on the witness inputs. -/
def wRec : TripRecommendation :=
  (processQuery wEnv "paris" true none).toOption.getD
    { intent := {}, trip_plan := wPlan }

theorem c2_total_cost_witness :
    wRec.total_cost_estimate = wRec.trip_plan.total_estimated_cost +
      (match wRec.outbound_flights with
       | some f =>
         if f.offers.isEmpty then 0
         else minOfferPrice f.offers * (wRec.intent.num_travelers : ℚ) *
           (if pyTruthyStr wRec.intent.end_date then 2 else 1)
       | none => 0) :=
  c2_total_cost wEnv "paris" true none wRec (by rfl)

theorem c8_confidence_mean_witness :
    wRec.confidence_score =
      (let planScore : ℚ :=
        if wRec.trip_plan.daily_plans.isEmpty then 0
        else if (wRec.trip_plan.daily_plans.length : Int) <
            pyOrInt wRec.intent.duration_days 1 then 7/10
        else 1
      match wRec.outbound_flights with
      | none => (wRec.intent.confidence_score + planScore) / 2
      | some f =>
        (wRec.intent.confidence_score + planScore +
          (if f.search_success && !f.offers.isEmpty then 1 else 1/2)) / 3) :=
  c8_confidence_mean wEnv "paris" true none wRec (by rfl)

theorem findFirst_matches_filter {α : Type} (l : List α) (p : α → Bool) :
    l.find? p = (l.filter p).head? := by
  induction l with
  | nil => rfl
  | cons x xs ih =>
    cases h : p x
    · rw [List.find?_cons, h, List.filter_cons, h]
      exact ih
    · rw [List.find?_cons, h, List.filter_cons, h]
      rfl

/-- Claim C9 counterexample: on "Bangkok Singapore" both the keys "bangkok"
(7 chars) and "singapore" (9 chars) are contained, the longest-key rule of
the claim picks SIN, but the code returns the code of the first table entry
in insertion order, BKK. -/
theorem c9_longest_match_counterexample :
    getAirportCode "Bangkok Singapore" = "BKK" ∧
    getAirportCodeByLongestKey "Bangkok Singapore" = "SIN" ∧
    "BKK" ≠ "SIN" :=
  ⟨by decide, by decide, by decide⟩

/-- Claim C9 as amended: airport-code resolution returns the code of the
FIRST table entry, in the fixed insertion order of the static table, whose
lowercase key is contained in the lowercased input; an input containing no
table key resolves to the default JFK. -/
theorem c9_first_match_amended (location : String) :
    getAirportCode location =
      (match (airportMap.filter
          (fun kc => containsSub (lowerData location) kc.1.data)).head? with
       | some kc => kc.2
       | none => "JFK") := by
  unfold getAirportCode
  rw [findFirst_matches_filter]

theorem bumpGrade_snd_sum (d : List (String × Nat)) (g : String) :
    ((bumpGrade d g).map Prod.snd).sum = (d.map Prod.snd).sum + 1 := by
  induction d with
  | nil => simp [bumpGrade]
  | cons kv rest ih =>
    by_cases h : kv.1 = g <;> simp [bumpGrade, h, ih] <;> omega

theorem foldBump_snd_sum (l : List EvaluationMetrics) (d : List (String × Nat)) :
    ((l.foldl (fun acc m => bumpGrade acc m.grade) d).map Prod.snd).sum =
      (d.map Prod.snd).sum + l.length := by
  induction l generalizing d with
  | nil => simp
  | cons m rest ih =>
    simp only [List.foldl_cons, List.length_cons, ih, bumpGrade_snd_sum]
    omega

/-- Claim C10: `batch_evaluate` is defined only for non-empty input — on
the empty list the mean computations divide by zero (modelled as `none`);
on every non-empty list it returns an aggregate whose total_evaluated is
the list length and whose grade-distribution counts sum to that length. -/
theorem c10_batch_evaluate (inputs : List (TripRecommendation × EvalEnv)) :
    (match batchEvaluate inputs with
     | none => inputs = []
     | some agg => inputs ≠ [] ∧ agg.total_evaluated = inputs.length ∧
         (agg.grade_distribution.map Prod.snd).sum = inputs.length) := by
  cases inputs with
  | nil => simp [batchEvaluate]
  | cons x xs =>
    simp only [batchEvaluate, List.map_cons, List.isEmpty_cons,
      Bool.false_eq_true, if_false]
    refine ⟨by simp, by simp, ?_⟩
    simpa using foldBump_snd_sum
      (evaluate x.1 x.2 :: xs.map (fun p => evaluate p.1 p.2)) []

end TripGenie
